import Mathlib

/-!
Verification development for the Cannon backend's scan-analysis pipeline.

The definitions below are a shallow embedding of the Python sources:
  * `backend/agents/langgraph_workflow.py` (the LLM-orchestrated pipeline),
  * `backend/services/facial_analysis_client.py` (the HTTP-proxy implementation),
  * `backend/api/scans.py` and `backend/middleware/auth_middleware.py` (read paths
    and payment gating).

Modelling conventions:
  * Python numbers are rationals (`ℚ`); byte buffers are `List ℕ`.
  * Upstream effects (the LLM, the HTTP analysis service, video decoding) are
    modelled by explicit oracle values: a call either raises (`Except.error`
    with the exception text) or yields an already-parsed payload.  Parsing
    failures of the JSON returned by a call are folded into the call's
    `Except.error` outcome, matching the single `try/except` that wraps
    call-plus-parse at every call site.
  * Python dicts whose keys a function reads with `.get` are embedded as
    structures of `Option` fields (one field per key the source reads);
    a missing key is `none`.
  * The pydantic models of `backend/models/scan.py` are not present in the
    tree; their numeric fields are reconstructed from the constructor call
    sites, and purely descriptive string fields that no claim touches are
    omitted.  The one place a constructor omits a numeric field
    (`horizontal_fifths_balance` in `_create_error_analysis`) uses
    `pydantic_subscore_default`, which is modelled from the spec.
-/

abbrev Bytes := List ℕ

abbrev Frame := List ℕ

/-- Clamp a rational to the interval [0, 10]: `max(0.0, min(10.0, x))`. -/
def clamp10 (x : ℚ) : ℚ := max 0 (min 10 x)

/-- Modelled from the spec: `backend/models/scan.py` is absent from the tree.
The spec fixes 5.0, the scale midpoint, as the default value for unspecified
sub-scores (section 4.2 and the design note on the midpoint-default pattern),
so a numeric sub-score field omitted at a constructor call site takes 5.0. -/
def pydantic_subscore_default : ℚ := 5

-- ============================================================
-- FaceMetrics (the compiled aggregate) and its region groups
-- ============================================================

structure JawlineMetrics where
  definition_score : ℚ
  symmetry_score : ℚ
  masseter_development : ℚ
  chin_projection : ℚ
  ramus_length : ℚ
deriving DecidableEq, Repr

structure CheekbonesMetrics where
  prominence_score : ℚ
  width_score : ℚ
  hollowness_below : ℚ
  symmetry_score : ℚ
deriving DecidableEq, Repr

structure EyeAreaMetrics where
  upper_eyelid_exposure : ℚ
  palpebral_fissure_height : ℚ
  under_eye_area : ℚ
  brow_bone_prominence : ℚ
  orbital_rim_support : ℚ
  symmetry_score : ℚ
deriving DecidableEq, Repr

structure NoseMetrics where
  bridge_height : ℚ
  tip_projection : ℚ
  nostril_symmetry : ℚ
  overall_harmony : ℚ
deriving DecidableEq, Repr

structure LipsMetrics where
  upper_lip_volume : ℚ
  lower_lip_volume : ℚ
  cupids_bow_definition : ℚ
  vermillion_border : ℚ
  philtrum_definition : ℚ
  lip_symmetry : ℚ
deriving DecidableEq, Repr

structure ForeheadMetrics where
  brow_bone_projection : ℚ
  temple_hollowing : ℚ
  forehead_symmetry : ℚ
  skin_texture : ℚ
deriving DecidableEq, Repr

structure SkinMetrics where
  overall_quality : ℚ
  texture_score : ℚ
  clarity_score : ℚ
  tone_evenness : ℚ
  hydration_appearance : ℚ
  pore_visibility : ℚ
  under_eye_darkness : ℚ
deriving DecidableEq, Repr

structure FacialProportions where
  facial_thirds_balance : ℚ
  upper_third_score : ℚ
  middle_third_score : ℚ
  lower_third_score : ℚ
  horizontal_fifths_balance : ℚ
  overall_symmetry : ℚ
  facial_convexity : ℚ
  golden_ratio_adherence : ℚ
deriving DecidableEq, Repr

structure ProfileMetrics where
  forehead_projection : ℚ
  nose_projection : ℚ
  lip_projection : ℚ
  chin_projection : ℚ
  submental_area : ℚ
  ramus_visibility : ℚ
  profile_harmony : ℚ
deriving DecidableEq, Repr

structure HairMetrics where
  density : ℚ
  hairline_health : ℚ
  hair_quality : ℚ
deriving DecidableEq, Repr

structure BodyFatIndicators where
  facial_leanness : ℚ
  definition_potential : ℚ
deriving DecidableEq, Repr

structure FaceMetrics where
  overall_score : ℚ
  harmony_score : ℚ
  jawline : JawlineMetrics
  cheekbones : CheekbonesMetrics
  eye_area : EyeAreaMetrics
  nose : NoseMetrics
  lips : LipsMetrics
  forehead : ForeheadMetrics
  skin : SkinMetrics
  proportions : FacialProportions
  profile : ProfileMetrics
  hair : HairMetrics
  body_fat : BodyFatIndicators
  confidence_score : ℚ
  image_quality_front : ℚ
  image_quality_left : ℚ
  image_quality_right : ℚ
deriving DecidableEq, Repr

/-- The list of the 56 named region sub-scores of a `FaceMetrics`, in source
order (jawline, cheekbones, eye area, nose, lips, forehead, skin,
proportions, profile, hair, body fat). -/
def subScoresFM (m : FaceMetrics) : List ℚ :=
  [m.jawline.definition_score, m.jawline.symmetry_score, m.jawline.masseter_development,
   m.jawline.chin_projection, m.jawline.ramus_length,
   m.cheekbones.prominence_score, m.cheekbones.width_score, m.cheekbones.hollowness_below,
   m.cheekbones.symmetry_score,
   m.eye_area.upper_eyelid_exposure, m.eye_area.palpebral_fissure_height,
   m.eye_area.under_eye_area, m.eye_area.brow_bone_prominence,
   m.eye_area.orbital_rim_support, m.eye_area.symmetry_score,
   m.nose.bridge_height, m.nose.tip_projection, m.nose.nostril_symmetry,
   m.nose.overall_harmony,
   m.lips.upper_lip_volume, m.lips.lower_lip_volume, m.lips.cupids_bow_definition,
   m.lips.vermillion_border, m.lips.philtrum_definition, m.lips.lip_symmetry,
   m.forehead.brow_bone_projection, m.forehead.temple_hollowing,
   m.forehead.forehead_symmetry, m.forehead.skin_texture,
   m.skin.overall_quality, m.skin.texture_score, m.skin.clarity_score,
   m.skin.tone_evenness, m.skin.hydration_appearance, m.skin.pore_visibility,
   m.skin.under_eye_darkness,
   m.proportions.facial_thirds_balance, m.proportions.upper_third_score,
   m.proportions.middle_third_score, m.proportions.lower_third_score,
   m.proportions.horizontal_fifths_balance, m.proportions.overall_symmetry,
   m.proportions.facial_convexity, m.proportions.golden_ratio_adherence,
   m.profile.forehead_projection, m.profile.nose_projection, m.profile.lip_projection,
   m.profile.chin_projection, m.profile.submental_area, m.profile.ramus_visibility,
   m.profile.profile_harmony,
   m.hair.density, m.hair.hairline_health, m.hair.hair_quality,
   m.body_fat.facial_leanness, m.body_fat.definition_potential]

-- ============================================================
-- ImprovementSuggestion and ScanAnalysis
-- ============================================================

inductive ImprovementPriority where
  | high
  | medium
  | low
deriving DecidableEq, Repr

structure ImprovementSuggestion where
  area : String
  priority : ImprovementPriority
  current_score : ℚ
  potential_score : ℚ
  suggestion : String
  exercises : List String
  products : List String
  timeframe : String
deriving DecidableEq, Repr

structure ScanAnalysis where
  metrics : FaceMetrics
  improvements : List ImprovementSuggestion
  top_strengths : List String
  focus_areas : List String
  recommended_courses : List String
  personalized_summary : String
  estimated_potential : ℚ
deriving DecidableEq, Repr

-- ============================================================
-- Parsed LLM metrics payload (the dict shapes read by
-- build_face_metrics in langgraph_workflow.py)
-- ============================================================

structure JawlineData where
  definition_score : Option ℚ := none
  symmetry_score : Option ℚ := none
  masseter_development : Option ℚ := none
  chin_projection : Option ℚ := none
  ramus_length : Option ℚ := none
deriving DecidableEq, Repr

structure CheekbonesData where
  prominence_score : Option ℚ := none
  width_score : Option ℚ := none
  hollowness_below : Option ℚ := none
  symmetry_score : Option ℚ := none
deriving DecidableEq, Repr

structure EyeAreaData where
  upper_eyelid_exposure : Option ℚ := none
  palpebral_fissure_height : Option ℚ := none
  under_eye_area : Option ℚ := none
  brow_bone_prominence : Option ℚ := none
  orbital_rim_support : Option ℚ := none
  symmetry_score : Option ℚ := none
deriving DecidableEq, Repr

structure NoseData where
  bridge_height : Option ℚ := none
  tip_projection : Option ℚ := none
  nostril_symmetry : Option ℚ := none
  overall_harmony : Option ℚ := none
deriving DecidableEq, Repr

structure LipsData where
  upper_lip_volume : Option ℚ := none
  lower_lip_volume : Option ℚ := none
  cupids_bow_definition : Option ℚ := none
  vermillion_border : Option ℚ := none
  philtrum_definition : Option ℚ := none
  lip_symmetry : Option ℚ := none
deriving DecidableEq, Repr

structure ForeheadData where
  brow_bone_projection : Option ℚ := none
  temple_hollowing : Option ℚ := none
  forehead_symmetry : Option ℚ := none
  skin_texture : Option ℚ := none
deriving DecidableEq, Repr

structure SkinData where
  overall_quality : Option ℚ := none
  texture_score : Option ℚ := none
  clarity_score : Option ℚ := none
  tone_evenness : Option ℚ := none
  hydration_appearance : Option ℚ := none
  pore_visibility : Option ℚ := none
  under_eye_darkness : Option ℚ := none
deriving DecidableEq, Repr

structure ProportionsData where
  facial_thirds_balance : Option ℚ := none
  upper_third_score : Option ℚ := none
  middle_third_score : Option ℚ := none
  lower_third_score : Option ℚ := none
  horizontal_fifths_balance : Option ℚ := none
  overall_symmetry : Option ℚ := none
  facial_convexity : Option ℚ := none
  golden_ratio_adherence : Option ℚ := none
deriving DecidableEq, Repr

structure ProfileData where
  forehead_projection : Option ℚ := none
  nose_projection : Option ℚ := none
  lip_projection : Option ℚ := none
  chin_projection : Option ℚ := none
  submental_area : Option ℚ := none
  ramus_visibility : Option ℚ := none
  profile_harmony : Option ℚ := none
deriving DecidableEq, Repr

structure HairData where
  density : Option ℚ := none
  hairline_health : Option ℚ := none
  hair_quality : Option ℚ := none
deriving DecidableEq, Repr

structure BodyFatData where
  facial_leanness : Option ℚ := none
  definition_potential : Option ℚ := none
deriving DecidableEq, Repr

/-- The parsed JSON payload of the metrics LLM call, as read by
`build_face_metrics` and `compile_analysis`.  A `none` group models a
missing group key (Python reads `data.get(group, {})`), and a `none`
field inside a group models a missing sub-score key. -/
structure MetricsData where
  overall_score : Option ℚ := none
  harmony_score : Option ℚ := none
  jawline : Option JawlineData := none
  cheekbones : Option CheekbonesData := none
  eye_area : Option EyeAreaData := none
  nose : Option NoseData := none
  lips : Option LipsData := none
  forehead : Option ForeheadData := none
  skin : Option SkinData := none
  proportions : Option ProportionsData := none
  profile : Option ProfileData := none
  hair : Option HairData := none
  body_fat : Option BodyFatData := none
  confidence_score : Option ℚ := none
  image_quality_front : Option ℚ := none
  image_quality_left : Option ℚ := none
  image_quality_right : Option ℚ := none
deriving DecidableEq, Repr

/-- The payload with every key missing (the result of parsing `{}`,
and the shape `data.get(group, {})` yields for every group when the
metrics dict is empty). -/
def MetricsData.empty : MetricsData := {}

/-- Python `data.get(group, {}).get(key, 5)`: look a sub-score up through an
optional group, with the 5 default of `build_face_metrics`. -/
def oget {α : Type} (g : Option α) (f : α → Option ℚ) : ℚ := (g.bind f).getD 5

/-- Python `metrics.get(group, {}).get(key, 0)`: the same lookup with the 0
default used by `compile_analysis` for its strength checks. -/
def oget0 {α : Type} (g : Option α) (f : α → Option ℚ) : ℚ := (g.bind f).getD 0

/-- Embedding of `build_face_metrics` (langgraph_workflow.py): build the
`FaceMetrics` aggregate from a parsed payload, defaulting every missing
sub-score to 5, the top-level scores to 5.0, confidence to 0.5 and the
image-quality scores to 5.0. -/
def build_face_metrics (d : MetricsData) : FaceMetrics :=
  { overall_score := d.overall_score.getD 5
    harmony_score := d.harmony_score.getD 5
    jawline :=
      { definition_score := oget d.jawline JawlineData.definition_score
        symmetry_score := oget d.jawline JawlineData.symmetry_score
        masseter_development := oget d.jawline JawlineData.masseter_development
        chin_projection := oget d.jawline JawlineData.chin_projection
        ramus_length := oget d.jawline JawlineData.ramus_length }
    cheekbones :=
      { prominence_score := oget d.cheekbones CheekbonesData.prominence_score
        width_score := oget d.cheekbones CheekbonesData.width_score
        hollowness_below := oget d.cheekbones CheekbonesData.hollowness_below
        symmetry_score := oget d.cheekbones CheekbonesData.symmetry_score }
    eye_area :=
      { upper_eyelid_exposure := oget d.eye_area EyeAreaData.upper_eyelid_exposure
        palpebral_fissure_height := oget d.eye_area EyeAreaData.palpebral_fissure_height
        under_eye_area := oget d.eye_area EyeAreaData.under_eye_area
        brow_bone_prominence := oget d.eye_area EyeAreaData.brow_bone_prominence
        orbital_rim_support := oget d.eye_area EyeAreaData.orbital_rim_support
        symmetry_score := oget d.eye_area EyeAreaData.symmetry_score }
    nose :=
      { bridge_height := oget d.nose NoseData.bridge_height
        tip_projection := oget d.nose NoseData.tip_projection
        nostril_symmetry := oget d.nose NoseData.nostril_symmetry
        overall_harmony := oget d.nose NoseData.overall_harmony }
    lips :=
      { upper_lip_volume := oget d.lips LipsData.upper_lip_volume
        lower_lip_volume := oget d.lips LipsData.lower_lip_volume
        cupids_bow_definition := oget d.lips LipsData.cupids_bow_definition
        vermillion_border := oget d.lips LipsData.vermillion_border
        philtrum_definition := oget d.lips LipsData.philtrum_definition
        lip_symmetry := oget d.lips LipsData.lip_symmetry }
    forehead :=
      { brow_bone_projection := oget d.forehead ForeheadData.brow_bone_projection
        temple_hollowing := oget d.forehead ForeheadData.temple_hollowing
        forehead_symmetry := oget d.forehead ForeheadData.forehead_symmetry
        skin_texture := oget d.forehead ForeheadData.skin_texture }
    skin :=
      { overall_quality := oget d.skin SkinData.overall_quality
        texture_score := oget d.skin SkinData.texture_score
        clarity_score := oget d.skin SkinData.clarity_score
        tone_evenness := oget d.skin SkinData.tone_evenness
        hydration_appearance := oget d.skin SkinData.hydration_appearance
        pore_visibility := oget d.skin SkinData.pore_visibility
        under_eye_darkness := oget d.skin SkinData.under_eye_darkness }
    proportions :=
      { facial_thirds_balance := oget d.proportions ProportionsData.facial_thirds_balance
        upper_third_score := oget d.proportions ProportionsData.upper_third_score
        middle_third_score := oget d.proportions ProportionsData.middle_third_score
        lower_third_score := oget d.proportions ProportionsData.lower_third_score
        horizontal_fifths_balance := oget d.proportions ProportionsData.horizontal_fifths_balance
        overall_symmetry := oget d.proportions ProportionsData.overall_symmetry
        facial_convexity := oget d.proportions ProportionsData.facial_convexity
        golden_ratio_adherence := oget d.proportions ProportionsData.golden_ratio_adherence }
    profile :=
      { forehead_projection := oget d.profile ProfileData.forehead_projection
        nose_projection := oget d.profile ProfileData.nose_projection
        lip_projection := oget d.profile ProfileData.lip_projection
        chin_projection := oget d.profile ProfileData.chin_projection
        submental_area := oget d.profile ProfileData.submental_area
        ramus_visibility := oget d.profile ProfileData.ramus_visibility
        profile_harmony := oget d.profile ProfileData.profile_harmony }
    hair :=
      { density := oget d.hair HairData.density
        hairline_health := oget d.hair HairData.hairline_health
        hair_quality := oget d.hair HairData.hair_quality }
    body_fat :=
      { facial_leanness := oget d.body_fat BodyFatData.facial_leanness
        definition_potential := oget d.body_fat BodyFatData.definition_potential }
    confidence_score := d.confidence_score.getD (1/2)
    image_quality_front := d.image_quality_front.getD 5
    image_quality_left := d.image_quality_left.getD 5
    image_quality_right := d.image_quality_right.getD 5 }

/-- Jawline slice of `subLookups`. -/
def subLookupsJawline (d : MetricsData) : List (Option ℚ) :=
  [d.jawline.bind JawlineData.definition_score, d.jawline.bind JawlineData.symmetry_score,
   d.jawline.bind JawlineData.masseter_development, d.jawline.bind JawlineData.chin_projection,
   d.jawline.bind JawlineData.ramus_length]

/-- Cheekbones slice of `subLookups`. -/
def subLookupsCheekbones (d : MetricsData) : List (Option ℚ) :=
  [d.cheekbones.bind CheekbonesData.prominence_score, d.cheekbones.bind CheekbonesData.width_score,
   d.cheekbones.bind CheekbonesData.hollowness_below, d.cheekbones.bind CheekbonesData.symmetry_score]

/-- Eye-area slice of `subLookups`. -/
def subLookupsEyeArea (d : MetricsData) : List (Option ℚ) :=
  [d.eye_area.bind EyeAreaData.upper_eyelid_exposure, d.eye_area.bind EyeAreaData.palpebral_fissure_height,
   d.eye_area.bind EyeAreaData.under_eye_area, d.eye_area.bind EyeAreaData.brow_bone_prominence,
   d.eye_area.bind EyeAreaData.orbital_rim_support, d.eye_area.bind EyeAreaData.symmetry_score]

/-- Nose slice of `subLookups`. -/
def subLookupsNose (d : MetricsData) : List (Option ℚ) :=
  [d.nose.bind NoseData.bridge_height, d.nose.bind NoseData.tip_projection,
   d.nose.bind NoseData.nostril_symmetry, d.nose.bind NoseData.overall_harmony]

/-- Lips slice of `subLookups`. -/
def subLookupsLips (d : MetricsData) : List (Option ℚ) :=
  [d.lips.bind LipsData.upper_lip_volume, d.lips.bind LipsData.lower_lip_volume,
   d.lips.bind LipsData.cupids_bow_definition, d.lips.bind LipsData.vermillion_border,
   d.lips.bind LipsData.philtrum_definition, d.lips.bind LipsData.lip_symmetry]

/-- Forehead slice of `subLookups`. -/
def subLookupsForehead (d : MetricsData) : List (Option ℚ) :=
  [d.forehead.bind ForeheadData.brow_bone_projection, d.forehead.bind ForeheadData.temple_hollowing,
   d.forehead.bind ForeheadData.forehead_symmetry, d.forehead.bind ForeheadData.skin_texture]

/-- Skin slice of `subLookups`. -/
def subLookupsSkin (d : MetricsData) : List (Option ℚ) :=
  [d.skin.bind SkinData.overall_quality, d.skin.bind SkinData.texture_score,
   d.skin.bind SkinData.clarity_score, d.skin.bind SkinData.tone_evenness,
   d.skin.bind SkinData.hydration_appearance, d.skin.bind SkinData.pore_visibility,
   d.skin.bind SkinData.under_eye_darkness]

/-- Proportions slice of `subLookups`. -/
def subLookupsProportions (d : MetricsData) : List (Option ℚ) :=
  [d.proportions.bind ProportionsData.facial_thirds_balance, d.proportions.bind ProportionsData.upper_third_score,
   d.proportions.bind ProportionsData.middle_third_score, d.proportions.bind ProportionsData.lower_third_score,
   d.proportions.bind ProportionsData.horizontal_fifths_balance, d.proportions.bind ProportionsData.overall_symmetry,
   d.proportions.bind ProportionsData.facial_convexity, d.proportions.bind ProportionsData.golden_ratio_adherence]

/-- Profile slice of `subLookups`. -/
def subLookupsProfile (d : MetricsData) : List (Option ℚ) :=
  [d.profile.bind ProfileData.forehead_projection, d.profile.bind ProfileData.nose_projection,
   d.profile.bind ProfileData.lip_projection, d.profile.bind ProfileData.chin_projection,
   d.profile.bind ProfileData.submental_area, d.profile.bind ProfileData.ramus_visibility,
   d.profile.bind ProfileData.profile_harmony]

/-- Hair and body-fat slice of `subLookups`. -/
def subLookupsHairBody (d : MetricsData) : List (Option ℚ) :=
  [d.hair.bind HairData.density, d.hair.bind HairData.hairline_health,
   d.hair.bind HairData.hair_quality,
   d.body_fat.bind BodyFatData.facial_leanness, d.body_fat.bind BodyFatData.definition_potential]

/-- The 56 sub-score lookups a payload provides, in the same order as
`subScoresFM`; `none` entries are the missing keys. -/
def subLookups (d : MetricsData) : List (Option ℚ) :=
  subLookupsJawline d ++ subLookupsCheekbones d ++ subLookupsEyeArea d ++ subLookupsNose d ++
  subLookupsLips d ++ subLookupsForehead d ++ subLookupsSkin d ++ subLookupsProportions d ++
  subLookupsProfile d ++ subLookupsHairBody d

/-- Embedding of `create_default_metrics_dict` (langgraph_workflow.py): the
fully-populated fallback payload, every sub-score 5, confidence 0.5,
image qualities 5.0. -/
def create_default_metrics_dict : MetricsData :=
  { overall_score := some 5
    harmony_score := some 5
    jawline := some
      { definition_score := some 5, symmetry_score := some 5, masseter_development := some 5
        chin_projection := some 5, ramus_length := some 5 }
    cheekbones := some
      { prominence_score := some 5, width_score := some 5, hollowness_below := some 5
        symmetry_score := some 5 }
    eye_area := some
      { upper_eyelid_exposure := some 5, palpebral_fissure_height := some 5
        under_eye_area := some 5, brow_bone_prominence := some 5
        orbital_rim_support := some 5, symmetry_score := some 5 }
    nose := some
      { bridge_height := some 5, tip_projection := some 5, nostril_symmetry := some 5
        overall_harmony := some 5 }
    lips := some
      { upper_lip_volume := some 5, lower_lip_volume := some 5, cupids_bow_definition := some 5
        vermillion_border := some 5, philtrum_definition := some 5, lip_symmetry := some 5 }
    forehead := some
      { brow_bone_projection := some 5, temple_hollowing := some 5, forehead_symmetry := some 5
        skin_texture := some 5 }
    skin := some
      { overall_quality := some 5, texture_score := some 5, clarity_score := some 5
        tone_evenness := some 5, hydration_appearance := some 5, pore_visibility := some 5
        under_eye_darkness := some 5 }
    proportions := some
      { facial_thirds_balance := some 5, upper_third_score := some 5, middle_third_score := some 5
        lower_third_score := some 5, horizontal_fifths_balance := some 5, overall_symmetry := some 5
        facial_convexity := some 5, golden_ratio_adherence := some 5 }
    profile := some
      { forehead_projection := some 5, nose_projection := some 5, lip_projection := some 5
        chin_projection := some 5, submental_area := some 5, ramus_visibility := some 5
        profile_harmony := some 5 }
    hair := some { density := some 5, hairline_health := some 5, hair_quality := some 5 }
    body_fat := some { facial_leanness := some 5, definition_potential := some 5 }
    confidence_score := some (1/2)
    image_quality_front := some 5
    image_quality_left := some 5
    image_quality_right := some 5 }

-- ============================================================
-- LLM pipeline state and stages (langgraph_workflow.py)
-- ============================================================

/-- The parsed JSON payload of the validation LLM call, restricted to the keys
later stages read. -/
structure ValidationData where
  front_quality : Option ℚ := none
  left_quality : Option ℚ := none
  right_quality : Option ℚ := none
deriving DecidableEq, Repr

/-- One parsed element of the improvements LLM call's JSON array, with the
keys `build_improvement` and `map_to_courses` read. -/
structure ImprovementData where
  area : Option String := none
  priority : Option String := none
  current_score : Option ℚ := none
  potential_score : Option ℚ := none
  suggestion : Option String := none
  exercises : Option (List String) := none
  products : Option (List String) := none
  timeframe : Option String := none
deriving DecidableEq, Repr

/-- The priority_map lookup of `build_improvement`, with MEDIUM as the
missing-key default. -/
def priority_map (s : String) : ImprovementPriority :=
  if s = "high" then .high
  else if s = "medium" then .medium
  else if s = "low" then .low
  else .medium

/-- Embedding of `build_improvement` (langgraph_workflow.py). -/
def build_improvement (dta : ImprovementData) : ImprovementSuggestion :=
  { area := dta.area.getD "general"
    priority := priority_map (dta.priority.getD "medium")
    current_score := dta.current_score.getD 5
    potential_score := dta.potential_score.getD 7
    suggestion := dta.suggestion.getD ""
    exercises := dta.exercises.getD []
    products := dta.products.getD []
    timeframe := dta.timeframe.getD "" }

/-- The dict built by `compile_analysis` on its success path.  `improvements`
and `recommended_courses` hold whatever the state held, including Python's
`None` (modelled as `none`), which the final conversion then trips over. -/
structure AnalysisData where
  metrics : MetricsData
  improvements : Option (List ImprovementData)
  top_strengths : List String
  focus_areas : List String
  recommended_courses : Option (List String)
  personalized_summary : String
  estimated_potential : ℚ
deriving DecidableEq, Repr

/-- The value of the state's `analysis` key after `compile_analysis`: either
the compiled dict or the `{"error": e}` dict from its exception handler. -/
inductive AnalysisResult where
  | ok (d : AnalysisData)
  | errOnly (e : String)
deriving DecidableEq, Repr

/-- Embedding of the `GraphState` TypedDict.  The `run_face_analysis_pipeline`
orchestrator initialises every non-image key to Python `None` / 0, which the
field defaults reproduce. -/
structure GState where
  front_image : Bytes
  left_image : Bytes
  right_image : Bytes
  validation_result : Option ValidationData := none
  face_metrics : Option MetricsData := none
  improvements : Option (List ImprovementData) := none
  course_mappings : Option (List String) := none
  analysis : Option AnalysisResult := none
  error : Option String := none
  retry_count : ℕ := 0
deriving DecidableEq, Repr

/-- The upstream LLM's behaviour for one pipeline run: for each of the three
call sites, either the exception text the call-plus-JSON-parse raises, or the
parsed payload it yields.  One field per call site because the orchestrator
invokes every stage, and hence every LLM call, exactly once per run. -/
structure LLMOracle where
  validateResp : Except String ValidationData
  metricsResp : Except String MetricsData
  improveResp : Except String (List ImprovementData)

/-- Embedding of `validate_images` (step 1): on any exception, fall back to a
7.0-quality validation dict and record the error. -/
def validate_images (o : LLMOracle) (s : GState) : GState :=
  match o.validateResp with
  | .ok v => { s with validation_result := some v, error := none }
  | .error e =>
      { s with
          validation_result :=
            some { front_quality := some 7, left_quality := some 7, right_quality := some 7 }
          error := some e }

/-- The image-quality injection `analyze_face_metrics` performs on its parsed
payload, reading the validation result with 7.0 defaults. -/
def inject_image_quality (md : MetricsData) (v : ValidationData) : MetricsData :=
  { md with
      image_quality_front := some (v.front_quality.getD 7)
      image_quality_left := some (v.left_quality.getD 7)
      image_quality_right := some (v.right_quality.getD 7) }

/-- The exception handler of `analyze_face_metrics`: below the retry cap it
only records the error and increments `retry_count`; at the cap it falls back
to the default metrics dict. -/
def metrics_stage_failed (s : GState) (e : String) : GState :=
  if s.retry_count < 2 then { s with error := some e, retry_count := s.retry_count + 1 }
  else { s with face_metrics := some create_default_metrics_dict
                error := some ("Analysis failed: " ++ e) }

/-- Embedding of `analyze_face_metrics` (step 2).  A `validation_result` of
Python `None` makes the quality injection raise inside the `try`, which the
same handler catches. -/
def analyze_face_metrics (o : LLMOracle) (s : GState) : GState :=
  match o.metricsResp with
  | .error e => metrics_stage_failed s e
  | .ok parsed =>
      match s.validation_result with
      | none => metrics_stage_failed s "AttributeError: NoneType object has no attribute get"
      | some v => { s with face_metrics := some (inject_image_quality parsed v), error := none }

/-- Embedding of `generate_improvements` (step 3): without metrics the stage
returns an empty list before calling the LLM; call or parse failure also
yields an empty list. -/
def generate_improvements (o : LLMOracle) (s : GState) : GState :=
  match s.face_metrics with
  | none => { s with improvements := some [], error := some "No metrics available" }
  | some _ =>
      match o.improveResp with
      | .ok imps => { s with improvements := some imps, error := none }
      | .error e => { s with improvements := some [], error := some e }

/-- The keyword-to-course table of `map_to_courses`, in source order. -/
def course_map : List (String × String) :=
  [("jawline", "jawline-mastery"), ("jaw", "jawline-mastery"), ("skin", "skincare-essentials"),
   ("fat", "fat-loss-for-face"), ("body", "fat-loss-for-face"), ("hair", "hair-optimization"),
   ("posture", "posture-correction")]

/-- Containment of one character list in another, scanning left to right. -/
def charsContain (needle : List Char) : List Char → Bool
  | [] => needle.isEmpty
  | c :: rest => needle.isPrefixOf (c :: rest) || charsContain needle rest

/-- Python's `needle in hay` on strings. -/
def strContains (hay needle : String) : Bool := charsContain needle.toList hay.toList

/-- Python's `str.lower`, written on the character list (the area labels and
keywords are ASCII, where this agrees with `String.toLower`). -/
def strLower (s : String) : String := ⟨s.data.map Char.toLower⟩

/-- Add a course id unless already present.  The source collects matches in a
Python `set` and returns `list(set)`, whose order is unspecified; this
embedding fixes first-insertion order, preserving membership and
duplicate-freeness. -/
def addCourse (acc : List String) (c : String) : List String :=
  if c ∈ acc then acc else acc ++ [c]

/-- The inner keyword loop of `map_to_courses` for one lower-cased area. -/
def coursesForArea (acc : List String) (area_lower : String) : List String :=
  course_map.foldl (fun a kv => if strContains area_lower kv.1 then addCourse a kv.2 else a) acc

/-- Embedding of `map_to_courses` (step 4).  An `improvements` value of
Python `None` makes the loop raise, caught into an empty mapping. -/
def map_to_courses (s : GState) : GState :=
  match s.improvements with
  | none => { s with course_mappings := some []
                     error := some "TypeError: NoneType object is not iterable" }
  | some imps =>
      let recommended := imps.foldl (fun acc imp => coursesForArea acc (strLower (imp.area.getD ""))) []
      { s with course_mappings := some recommended }

/-- The strengths list `compile_analysis` accumulates: three fixed checks with
the 0 default for missing keys. -/
def strengths_of (m : MetricsData) : List String :=
  (if 7 ≤ oget0 m.jawline JawlineData.definition_score then ["Well-defined jawline"] else []) ++
  (if 7 ≤ oget0 m.skin SkinData.overall_quality then ["Good skin quality"] else []) ++
  (if 7 ≤ oget0 m.proportions ProportionsData.overall_symmetry then ["Good facial symmetry"] else [])

/-- The focus-areas list `compile_analysis` accumulates: only the jawline and
skin checks feed it; the symmetry check has no else-branch. -/
def focus_of (m : MetricsData) : List String :=
  (if 7 ≤ oget0 m.jawline JawlineData.definition_score then [] else ["Jawline definition"]) ++
  (if 7 ≤ oget0 m.skin SkinData.overall_quality then [] else ["Skin improvement"])

/-- The `min(10.0, overall + len(focus_areas) * 0.5)` projection of
`compile_analysis`. -/
def potential_of (m : MetricsData) : ℚ :=
  min 10 (m.overall_score.getD 5 + ((focus_of m).length : ℚ) * (1/2))

/-- The personalized summary `compile_analysis` formats.  Python renders the
numbers with `str` and `.1f`; the digits never matter to a claim, so the
rendering is abstracted by `toString`. -/
def summary_of (m : MetricsData) : String :=
  "Your overall score is " ++ toString (m.overall_score.getD 5) ++
  "/10. With consistent effort on your focus areas, you could reach " ++
  toString (potential_of m) ++ "/10."

/-- Embedding of `compile_analysis` (step 5).  A `face_metrics` of Python
`None` raises at the first `.get`, caught into the `{"error": e}` dict. -/
def compile_analysis (s : GState) : GState :=
  match s.face_metrics with
  | none =>
      let e := "AttributeError: NoneType object has no attribute get"
      { s with analysis := some (.errOnly e), error := some e }
  | some m =>
      { s with analysis := some (.ok
          { metrics := m
            improvements := s.improvements
            top_strengths := (strengths_of m).take 5
            focus_areas := (focus_of m).take 5
            recommended_courses := s.course_mappings
            personalized_summary := summary_of m
            estimated_potential := potential_of m }) }

/-- Embedding of `create_fallback_analysis` (langgraph_workflow.py). -/
def create_fallback_analysis (error : String) : ScanAnalysis :=
  { metrics := build_face_metrics create_default_metrics_dict
    improvements := []
    top_strengths := []
    focus_areas := ["Retry analysis"]
    recommended_courses := []
    personalized_summary := "Analysis encountered an issue. Please try again. Error: " ++ error
    estimated_potential := 5 }

/-- The final conversion of `run_face_analysis_pipeline`: read the analysis
dict with defaults and build the `ScanAnalysis`; any exception inside the
conversion (an `analysis` of Python `None`, a `None` improvements list, a
model-validation failure) lands in `create_fallback_analysis`. -/
def finalize_analysis (s : GState) : ScanAnalysis :=
  match s.analysis with
  | none => create_fallback_analysis "AttributeError: NoneType object has no attribute get"
  | some (.errOnly _) =>
      { metrics := build_face_metrics MetricsData.empty
        improvements := []
        top_strengths := []
        focus_areas := []
        recommended_courses := []
        personalized_summary := ""
        estimated_potential := 5 }
  | some (.ok d) =>
      match d.improvements, d.recommended_courses with
      | some imps, some cs =>
          { metrics := build_face_metrics d.metrics
            improvements := imps.map build_improvement
            top_strengths := d.top_strengths
            focus_areas := d.focus_areas
            recommended_courses := cs
            personalized_summary := d.personalized_summary
            estimated_potential := d.estimated_potential }
      | none, _ => create_fallback_analysis "TypeError: NoneType object is not iterable"
      | some _, none => create_fallback_analysis "validation error: recommended_courses is None"

/-- Embedding of `run_face_analysis_pipeline`: the five stages in sequence on
a fresh state, then the conversion.  The return type is `ScanAnalysis`, not
`Except`, because every stage and the conversion catch their exceptions: the
orchestrator cannot raise. -/
def run_face_analysis_pipeline (o : LLMOracle) (front_image left_image right_image : Bytes) :
    ScanAnalysis :=
  let s0 : GState := { front_image := front_image, left_image := left_image,
                       right_image := right_image }
  finalize_analysis (compile_analysis (map_to_courses
    (generate_improvements o (analyze_face_metrics o (validate_images o s0)))))

-- ============================================================
-- Frame extraction and the video pipeline
-- ============================================================

/-- A decoded video as OpenCV exposes it to `extract_frames_from_video`: the
reported frame rate, the reported frame count, and the decode outcome of a
seek-and-read at each frame position (an unreadable or out-of-range position
is `none`). -/
structure Video where
  fps0 : ℚ
  total_frames : ℤ
  read : ℤ → Option Frame

/-- Python `int()` on a rational: truncation toward zero. -/
def pyInt (q : ℚ) : ℤ := if 0 ≤ q then q.num / (q.den : ℤ) else -((-q).num / (((-q).den : ℤ)))

/-- JPEG encoding of a decoded frame, abstracted as the identity buffer map;
no claim depends on the encoded bits. -/
def imencode_jpg (f : Frame) : Bytes := f

/-- The reported fps with the `or 30.0` fallback for a falsy reading. -/
def video_fps (v : Video) : ℚ := if v.fps0 = 0 then 30 else v.fps0

/-- The three sampling indices of `extract_frames_from_video`:
`int(0.5 * fps)`, `int(5.0 * fps)`, `int(14.0 * fps)`. -/
def frame_indices (v : Video) : ℤ × ℤ × ℤ :=
  (pyInt ((1/2) * video_fps v), pyInt (5 * video_fps v), pyInt (14 * video_fps v))

/-- One loop iteration of `extract_frames_from_video`: clamp the index with
`min(idx, total_frames - 1)`, read there, and on failure fall back to a read
of frame 0; if that read also fails, `cv2.imencode` raises on the empty
frame. -/
def read_frame_at (v : Video) (idx : ℤ) : Except String Bytes :=
  let safe := min idx (v.total_frames - 1)
  match v.read safe with
  | some f => .ok (imencode_jpg f)
  | none =>
      match v.read 0 with
      | some f => .ok (imencode_jpg f)
      | none => .error "cv2.error: imencode received an empty frame"

/-- One iteration of the trailing `while len(frames) < 3` padding loop:
append the last frame, or an empty buffer when nothing decoded. -/
def pad_step (l : List Bytes) : List Bytes :=
  if l.length < 3 then l ++ [(l.getLast?).getD []] else l

/-- The padding loop, unrolled to its at most three iterations. -/
def pad_to_three (l : List Bytes) : List Bytes := pad_step (pad_step (pad_step l))

/-- Embedding of `extract_frames_from_video`: sample the three fixed offsets
and return exactly three buffers, or propagate the first decode exception. -/
def extract_frames_from_video (v : Video) : Except String (Bytes × Bytes × Bytes) := do
  let i := frame_indices v
  let b1 ← read_frame_at v i.1
  let b2 ← read_frame_at v i.2.1
  let b3 ← read_frame_at v i.2.2
  let frames := pad_to_three [b1, b2, b3]
  pure (frames.getD 0 [], frames.getD 1 [], frames.getD 2 [])

/-- Embedding of `run_video_analysis_pipeline`: frame extraction feeding the
face pipeline, with the orchestrator-boundary handler turning any escaping
exception into the fallback analysis.  The return type is `ScanAnalysis`, not
`Except`: no exception reaches the caller. -/
def run_video_analysis_pipeline (o : LLMOracle) (v : Video) : ScanAnalysis :=
  match extract_frames_from_video v with
  | .ok (f, l, r) => run_face_analysis_pipeline o f l r
  | .error e => create_fallback_analysis ("Video extraction failed: " ++ e)

-- ============================================================
-- HTTP-proxy implementation (facial_analysis_client.py)
-- ============================================================

/-- One entry of a measurement view in the analysis-service response: either
a dict with optional pre-computed `score` and raw `value` fields, or a bare
number. -/
inductive MEntry where
  | obj (score : Option ℚ) (value : Option ℚ)
  | num (x : ℚ)

/-- A measurement view (`front_view` or `profile_view`): a lookup from
measurement key to entry. -/
abbrev MeasurementView := String → Option MEntry

/-- Embedding of the nested `val` helper of `_map_to_scan_analysis`: prefer
the pre-computed `score` (clamped), else the raw `value` clamped to [0, 10],
else the given default; a bare number is clamped. -/
def val (view : MeasurementView) (key : String) (d : ℚ) : ℚ :=
  match view key with
  | none => d
  | some (.obj s v) =>
      match s with
      | some sc => clamp10 sc
      | none =>
          match v with
          | some x => clamp10 x
          | none => d
  | some (.num x) => clamp10 x

/-- One element of `ai_recommendations.recommendations`. -/
structure RecItem where
  title : Option String := none
  description : Option String := none
  suggestion : Option String := none

/-- The `ai_recommendations` object of the service response. -/
structure AiRecs where
  summary : Option String := none
  strengths : Option (List String) := none
  recommendations : Option (List RecItem) := none

/-- The keys of the analysis-service JSON response that
`_map_to_scan_analysis` reads. -/
structure ServiceResponse where
  front_view : MeasurementView := fun _ => none
  profile_view : MeasurementView := fun _ => none
  summary_overall_score : Option ℚ := none
  golden_average_score : Option ℚ := none
  ai_recommendations : Option AiRecs := none

/-- Python `b or c` where a missing key and a zero reading are both falsy. -/
def orFalsy (b : Option ℚ) (c : ℚ) : ℚ :=
  match b with
  | some x => if x = 0 then c else x
  | none => c

/-- Python `a or b or c` over two optional readings and a literal default. -/
def firstTruthy (a b : Option ℚ) (c : ℚ) : ℚ :=
  match a with
  | some x => if x = 0 then orFalsy b c else x
  | none => orFalsy b c

/-- Embedding of `_map_to_scan_analysis` (facial_analysis_client.py). -/
def map_to_scan_analysis (r : ServiceResponse) : ScanAnalysis :=
  let front := r.front_view
  let profile := r.profile_view
  let overall_score := clamp10 (firstTruthy r.summary_overall_score r.golden_average_score 5)
  let ai := r.ai_recommendations.getD {}
  let raw_recs := ai.recommendations.getD []
  { metrics :=
      { overall_score := overall_score
        harmony_score := val front "symmetry_score" overall_score
        jawline :=
          { definition_score := val front "jaw_cheek_ratio" 5
            symmetry_score := val front "symmetry_score" 5
            masseter_development := 5
            chin_projection := val profile "chin_projection" 5
            ramus_length := 5 }
        cheekbones :=
          { prominence_score := 5
            width_score := val front "face_width_height_ratio" 5
            hollowness_below := 5
            symmetry_score := val front "symmetry_score" 5 }
        eye_area :=
          { upper_eyelid_exposure := val front "ear_left" 5
            palpebral_fissure_height := val front "ear_right" 5
            under_eye_area := 5
            brow_bone_prominence := 5
            orbital_rim_support := 5
            symmetry_score := val front "symmetry_score" 5 }
        nose :=
          { bridge_height := 5
            tip_projection := val profile "nasolabial_angle" 5
            nostril_symmetry := val front "nose_width_ratio" 5
            overall_harmony := 5 }
        lips :=
          { upper_lip_volume := 5
            lower_lip_volume := 5
            cupids_bow_definition := 5
            vermillion_border := 5
            philtrum_definition := val front "philtrum_length_mm" 5
            lip_symmetry := 5 }
        forehead :=
          { brow_bone_projection := 5
            temple_hollowing := 5
            forehead_symmetry := val front "symmetry_score" 5
            skin_texture := 5 }
        skin :=
          { overall_quality := 5, texture_score := 5, clarity_score := 5, tone_evenness := 5
            hydration_appearance := 5, pore_visibility := 5, under_eye_darkness := 5 }
        proportions :=
          { facial_thirds_balance := val front "midface_ratio" 5
            upper_third_score := val front "facial_third_upper_mm" 5
            middle_third_score := val front "facial_third_mid_mm" 5
            lower_third_score := val front "facial_third_lower_mm" 5
            horizontal_fifths_balance := val front "esr" 5
            overall_symmetry := val front "symmetry_score" 5
            facial_convexity := val profile "facial_convexity" 5
            golden_ratio_adherence := clamp10 (orFalsy r.golden_average_score 5) }
        profile :=
          { forehead_projection := 5
            nose_projection := val profile "nasolabial_angle" 5
            lip_projection := val profile "mentolabial_angle" 5
            chin_projection := val profile "chin_projection" 5
            submental_area := 5
            ramus_visibility := 5
            profile_harmony := val profile "facial_convexity" 5 }
        hair := { density := 5, hairline_health := 5, hair_quality := 5 }
        body_fat := { facial_leanness := 5, definition_potential := 5 }
        confidence_score := 9/10
        image_quality_front := 8
        image_quality_left := 8
        image_quality_right := 8 }
    improvements := raw_recs.map (fun rec =>
      { area := rec.title.getD "General"
        priority := .medium
        current_score := 5
        potential_score := 7
        suggestion :=
          match rec.description with
          | some dsc => dsc
          | none => rec.suggestion.getD ""
        exercises := []
        products := []
        timeframe := "3 months" })
    top_strengths := ai.strengths.getD []
    focus_areas := []
    recommended_courses := []
    personalized_summary := ai.summary.getD "Analysis complete."
    estimated_potential := min 10 (overall_score + 1) }

/-- Embedding of `_create_error_analysis` (facial_analysis_client.py): the
all-zero analysis returned when the service call fails.  The constructor call
does not pass `horizontal_fifths_balance`, so that field takes the model
default (see `pydantic_subscore_default`). -/
def create_error_analysis (error_msg : String) : ScanAnalysis :=
  { metrics :=
      { overall_score := 0
        harmony_score := 0
        jawline := { definition_score := 0, symmetry_score := 0, masseter_development := 0
                     chin_projection := 0, ramus_length := 0 }
        cheekbones := { prominence_score := 0, width_score := 0, hollowness_below := 0
                        symmetry_score := 0 }
        eye_area := { upper_eyelid_exposure := 0, palpebral_fissure_height := 0
                      under_eye_area := 0, brow_bone_prominence := 0
                      orbital_rim_support := 0, symmetry_score := 0 }
        nose := { bridge_height := 0, tip_projection := 0, nostril_symmetry := 0
                  overall_harmony := 0 }
        lips := { upper_lip_volume := 0, lower_lip_volume := 0, cupids_bow_definition := 0
                  vermillion_border := 0, philtrum_definition := 0, lip_symmetry := 0 }
        forehead := { brow_bone_projection := 0, temple_hollowing := 0, forehead_symmetry := 0
                      skin_texture := 0 }
        skin := { overall_quality := 0, texture_score := 0, clarity_score := 0
                  tone_evenness := 0, hydration_appearance := 0, pore_visibility := 0
                  under_eye_darkness := 0 }
        proportions := { facial_thirds_balance := 0, upper_third_score := 0
                         middle_third_score := 0, lower_third_score := 0
                         horizontal_fifths_balance := pydantic_subscore_default
                         overall_symmetry := 0, facial_convexity := 0
                         golden_ratio_adherence := 0 }
        profile := { forehead_projection := 0, nose_projection := 0, lip_projection := 0
                     chin_projection := 0, submental_area := 0, ramus_visibility := 0
                     profile_harmony := 0 }
        hair := { density := 0, hairline_health := 0, hair_quality := 0 }
        body_fat := { facial_leanness := 0, definition_potential := 0 }
        confidence_score := 0
        image_quality_front := 0
        image_quality_left := 0
        image_quality_right := 0 }
    improvements := []
    top_strengths := []
    focus_areas := []
    recommended_courses := []
    personalized_summary := "Analysis service unavailable: " ++ error_msg
    estimated_potential := 0 }

/-- The outcome of one HTTP call to the analysis service: a parsed 2xx JSON
body, a non-2xx status (raised by `raise_for_status`), or any other
exception. -/
inductive HttpOutcome where
  | ok (r : ServiceResponse)
  | statusError (status : ℕ) (detail : String)
  | exc (msg : String)

/-- Embedding of `FacialAnalysisClient.upload_video`: map a 2xx body, and
convert every failure into the error analysis instead of raising.  The
return type is `ScanAnalysis`, not `Except`: no exception reaches the
caller. -/
def upload_video (_video_bytes : Bytes) (o : HttpOutcome) : ScanAnalysis :=
  match o with
  | .ok r => map_to_scan_analysis r
  | .statusError st d =>
      create_error_analysis ("Analysis service returned " ++ toString st ++ ": " ++ d)
  | .exc m => create_error_analysis m

/-- Embedding of `FacialAnalysisClient.analyze_frames`: identical failure
handling to `upload_video` (the frames only shape the request payload). -/
def analyze_frames (_frames_data : List Bytes) (o : HttpOutcome) : ScanAnalysis :=
  match o with
  | .ok r => map_to_scan_analysis r
  | .statusError st d =>
      create_error_analysis ("Analysis service returned " ++ toString st ++ ": " ++ d)
  | .exc m => create_error_analysis m

-- ============================================================
-- Read paths and payment gating (scans.py, auth_middleware.py)
-- ============================================================

/-- The caller fields the gating code reads: payer flag, admin flag, and
whether a stored subscription end date lies in the past. -/
structure UserDoc where
  is_paid : Bool
  is_admin : Bool
  sub_expired : Bool
deriving DecidableEq, Repr

/-- A stored scan document, restricted to the fields the two read paths
return. -/
structure ScanRecord where
  analysis : Option ScanAnalysis := none
  processing_status : Option String := none
deriving DecidableEq, Repr

/-- The shape of the `analysis` field of a read-path response: the full
stored object, or the non-payer dict holding exactly `overall_score` and
`locked: true`. -/
inductive AnalysisView where
  | full (a : ScanAnalysis)
  | locked (overall_score : ℚ)
deriving DecidableEq, Repr

/-- The non-payer redaction of `get_latest_scan`: the stored dump has no
top-level `overall_score` key, so the `or` chain lands on
`metrics.overall_score`. -/
def redacted_view (a : ScanAnalysis) : AnalysisView := .locked a.metrics.overall_score

/-- The response of `get_latest_scan`, restricted to the gating-relevant
fields. -/
structure LatestScanResponse where
  is_unlocked : Bool
  analysis : Option AnalysisView
  processing_status : Option String
deriving DecidableEq, Repr

/-- Embedding of `get_latest_scan` (scans.py): any authenticated caller
reaches it; the analysis field is redacted per request for non-payers and
included in full for payers. -/
def get_latest_scan (current_user : UserDoc) (scan : Option ScanRecord) :
    Except ℕ LatestScanResponse :=
  match scan with
  | none => .error 404
  | some s =>
      .ok { is_unlocked := current_user.is_paid
            analysis := s.analysis.map (fun a =>
              if current_user.is_paid then .full a else redacted_view a)
            processing_status := s.processing_status }

/-- Embedding of `require_paid_user` (auth_middleware.py): admins pass, then
unpaid callers get 402, then expired subscriptions get 402. -/
def require_paid_user (current_user : UserDoc) : Except ℕ UserDoc :=
  if current_user.is_admin then .ok current_user
  else if current_user.is_paid then
    (if current_user.sub_expired then .error 402 else .ok current_user)
  else .error 402

/-- The response of `get_scan_by_id`, restricted to the gating-relevant
fields; the stored analysis is returned as-is, with no redaction. -/
structure ScanByIdResponse where
  analysis : Option ScanAnalysis
  processing_status : Option String
deriving DecidableEq, Repr

/-- Embedding of `get_scan_by_id` (scans.py): the route depends on
`require_paid_user`, so non-payers receive its 402 error and never a
response body. -/
def get_scan_by_id (current_user : UserDoc) (scan : Option ScanRecord) :
    Except ℕ ScanByIdResponse :=
  match require_paid_user current_user with
  | .error c => .error c
  | .ok _ =>
      match scan with
      | none => .error 404
      | some s => .ok { analysis := s.analysis, processing_status := s.processing_status }

-- ============================================================
-- Helper lemmas
-- ============================================================

theorem clamp10_nonneg (x : ℚ) : 0 ≤ clamp10 x := le_max_left 0 _

theorem clamp10_le_ten (x : ℚ) : clamp10 x ≤ 10 :=
  max_le (by norm_num) (min_le_left _ _)

theorem clamp10_eq_self {x : ℚ} (h0 : 0 ≤ x) (h1 : x ≤ 10) : clamp10 x = x := by
  unfold clamp10
  rw [min_eq_right h1, max_eq_right h0]

/-- A substring occurrence: `needle` appears inside `hay`. -/
def hasSubstring (hay needle : String) : Prop := ∃ p q, hay = p ++ (needle ++ q)

-- ============================================================
-- Claim C4
-- ============================================================

/-- C4: the value-extraction rule `val` of the measurement-service mapping
returns the pre-computed score field when present (unchanged whenever it
already lies on the 0-10 scale, and never averaged with the raw value), else
the raw value clamped to [0, 10], else the default; for a 0-10 default the
result always lies in [0, 10] whatever the sign and magnitude of the raw
readings. -/
theorem claim_C4_val_extraction_rule :
    (∀ (view : MeasurementView) (key : String) (d : ℚ),
        view key = none → val view key d = d) ∧
    (∀ (view : MeasurementView) (key : String) (d sc : ℚ) (v : Option ℚ),
        view key = some (.obj (some sc) v) →
        val view key d = clamp10 sc ∧ (0 ≤ sc → sc ≤ 10 → val view key d = sc)) ∧
    (∀ (view : MeasurementView) (key : String) (d x : ℚ),
        view key = some (.obj none (some x)) →
        val view key d = clamp10 x ∧ 0 ≤ val view key d ∧ val view key d ≤ 10) ∧
    (∀ (view : MeasurementView) (key : String) (d : ℚ),
        view key = some (.obj none none) → val view key d = d) ∧
    (∀ (view : MeasurementView) (key : String) (d : ℚ),
        0 ≤ d → d ≤ 10 → 0 ≤ val view key d ∧ val view key d ≤ 10) := by
  refine ⟨?_, ?_, ?_, ?_, ?_⟩
  · intro view key d h
    simp [val, h]
  · intro view key d sc v h
    refine ⟨by simp [val, h], fun h0 h1 => ?_⟩
    simp [val, h, clamp10_eq_self h0 h1]
  · intro view key d x h
    refine ⟨by simp [val, h], ?_, ?_⟩ <;> simp [val, h]
    · exact clamp10_nonneg x
    · exact clamp10_le_ten x
  · intro view key d h
    simp [val, h]
  · intro view key d h0 h1
    unfold val
    rcases hk : view key with _ | e
    · exact ⟨h0, h1⟩
    · rcases e with ⟨s, v⟩ | x
      · rcases s with _ | sc
        · rcases v with _ | x
          · exact ⟨h0, h1⟩
          · exact ⟨clamp10_nonneg x, clamp10_le_ten x⟩
        · exact ⟨clamp10_nonneg sc, clamp10_le_ten sc⟩
      · exact ⟨clamp10_nonneg x, clamp10_le_ten x⟩

/-- A concrete measurement view exercising all branches of `val`. -/
def valDemoView : MeasurementView := fun k =>
  if k = "withscore" then some (.obj (some 12) (some 999))
  else if k = "onlyvalue" then some (.obj none (some (-3)))
  else if k = "bare" then some (.num 47)
  else none

/-- Witness for C4 at concrete inputs. -/
theorem claim_C4_val_extraction_rule_witness :
    val valDemoView "withscore" 5 = clamp10 12 ∧
    val valDemoView "onlyvalue" 5 = clamp10 (-3) ∧
    0 ≤ val valDemoView "onlyvalue" 5 ∧
    val valDemoView "missing" 5 = 5 ∧
    0 ≤ val valDemoView "bare" 5 ∧ val valDemoView "bare" 5 ≤ 10 :=
  ⟨(claim_C4_val_extraction_rule.2.1 valDemoView "withscore" 5 12 (some 999) rfl).1,
   (claim_C4_val_extraction_rule.2.2.1 valDemoView "onlyvalue" 5 (-3) rfl).1,
   (claim_C4_val_extraction_rule.2.2.1 valDemoView "onlyvalue" 5 (-3) rfl).2.1,
   claim_C4_val_extraction_rule.1 valDemoView "missing" 5 rfl,
   (claim_C4_val_extraction_rule.2.2.2.2 valDemoView "bare" 5 (by norm_num) (by norm_num)).1,
   (claim_C4_val_extraction_rule.2.2.2.2 valDemoView "bare" 5 (by norm_num) (by norm_num)).2⟩
-- ============================================================
-- Claim C5
-- ============================================================

/-- C5: the normalizer is total on partial payloads: on the empty payload
(which is what malformed upstream JSON reduces to) every one of the 56 named
sub-scores is defined, equals the 5.0 midpoint and lies in [0, 10], the
top-level scores take their 5.0 and 0.5 defaults, and in general every
sub-score of `build_face_metrics` is the payload's value when the key is
present and the 5.0 midpoint when it is missing — never an absent value and
never an error. -/
theorem claim_C5_normalizer_defaults :
    (∀ q ∈ subScoresFM (build_face_metrics MetricsData.empty), q = 5 ∧ 0 ≤ q ∧ q ≤ 10) ∧
    (build_face_metrics MetricsData.empty).overall_score = 5 ∧
    (build_face_metrics MetricsData.empty).harmony_score = 5 ∧
    (build_face_metrics MetricsData.empty).confidence_score = 1/2 ∧
    (∀ d : MetricsData,
        subScoresFM (build_face_metrics d) = (subLookups d).map (fun o => o.getD 5)) := by
  have hrep : subScoresFM (build_face_metrics MetricsData.empty) = List.replicate 56 5 := rfl
  refine ⟨?_, rfl, rfl, rfl, fun d => rfl⟩
  intro q hq
  rw [hrep] at hq
  rw [List.eq_of_mem_replicate hq]
  norm_num

/-- Witness for C5: the midpoint value occurs in the empty-payload aggregate
and satisfies the stated bounds. -/
theorem claim_C5_normalizer_defaults_witness :
    (5 : ℚ) ∈ subScoresFM (build_face_metrics MetricsData.empty) ∧
    ((5 : ℚ) = 5 ∧ 0 ≤ (5 : ℚ) ∧ (5 : ℚ) ≤ 10) := by
  have hmem : (5 : ℚ) ∈ subScoresFM (build_face_metrics MetricsData.empty) := by
    rw [show subScoresFM (build_face_metrics MetricsData.empty) = List.replicate 56 5 from rfl]
    exact List.mem_replicate.mpr ⟨by norm_num, rfl⟩
  exact ⟨hmem, claim_C5_normalizer_defaults.1 5 hmem⟩

-- ============================================================
-- Claim C3
-- ============================================================

/-- The service response with every key missing. -/
def emptyServiceResponse : ServiceResponse := {}

/-- C3 counterexample: in the HTTP-proxy implementation the compiled
analysis has `focus_areas = []`, so the claimed formula
`min(10, overall + 0.5 * len(focus_areas))` would give the overall score
itself (5 on the default response), but the code computes
`min(10, overall + 1.0) = 6`. -/
theorem claim_C3_counterexample :
    (map_to_scan_analysis emptyServiceResponse).estimated_potential = 6 ∧
    min 10 ((map_to_scan_analysis emptyServiceResponse).metrics.overall_score
      + ((map_to_scan_analysis emptyServiceResponse).focus_areas.length : ℚ) * (1/2)) = 5 ∧
    (6 : ℚ) ≠ 5 := by
  have h1 : (map_to_scan_analysis emptyServiceResponse).estimated_potential
      = min 10 (clamp10 5 + 1) := rfl
  have h2 : (map_to_scan_analysis emptyServiceResponse).metrics.overall_score = clamp10 5 := rfl
  have h3 : (map_to_scan_analysis emptyServiceResponse).focus_areas = [] := rfl
  have hc : clamp10 5 = 5 := clamp10_eq_self (by norm_num) (by norm_num)
  refine ⟨?_, ?_, by norm_num⟩
  · rw [h1, hc]
    rw [min_eq_right (by norm_num)]
    norm_num
  · rw [h2, h3, hc]
    norm_num

/-- C3 amended: the focus-area formula holds only in the LLM pipeline's
compile stage, where `estimated_potential = min(10, overall + 0.5 *
len(focus_areas))`, is at most 10 always, and is at least the overall score
whenever that score is at most 10 (the LLM payload's overall score is not
clamped); the HTTP-proxy implementation instead computes `min(10, overall +
1.0)` over an overall score clamped to [0, 10], which therefore always lies
between the overall score and 10, with an always-empty focus-area list. -/
theorem claim_C3_estimated_potential :
    (∀ r : ServiceResponse,
        (map_to_scan_analysis r).estimated_potential
            = min 10 ((map_to_scan_analysis r).metrics.overall_score + 1) ∧
        (map_to_scan_analysis r).metrics.overall_score
            ≤ (map_to_scan_analysis r).estimated_potential ∧
        (map_to_scan_analysis r).estimated_potential ≤ 10 ∧
        (map_to_scan_analysis r).focus_areas = []) ∧
    (∀ m : MetricsData,
        potential_of m
            = min 10 (m.overall_score.getD 5 + ((focus_of m).length : ℚ) * (1/2)) ∧
        (m.overall_score.getD 5 ≤ 10 → m.overall_score.getD 5 ≤ potential_of m) ∧
        potential_of m ≤ 10) ∧
    (∀ (s : GState) (m : MetricsData), s.face_metrics = some m →
        ∃ d, (compile_analysis s).analysis = some (.ok d) ∧
          d.estimated_potential = potential_of m ∧
          d.focus_areas = (focus_of m).take 5) := by
  refine ⟨?_, ?_, ?_⟩
  · intro r
    have h10 := clamp10_le_ten (firstTruthy r.summary_overall_score r.golden_average_score 5)
    have h0 := clamp10_nonneg (firstTruthy r.summary_overall_score r.golden_average_score 5)
    refine ⟨rfl, ?_, min_le_left _ _, rfl⟩
    show clamp10 (firstTruthy r.summary_overall_score r.golden_average_score 5)
        ≤ min 10 (clamp10 (firstTruthy r.summary_overall_score r.golden_average_score 5) + 1)
    exact le_min h10 (by linarith)
  · intro m
    refine ⟨rfl, fun h => ?_, min_le_left _ _⟩
    unfold potential_of
    have hnn : (0 : ℚ) ≤ ((focus_of m).length : ℚ) * (1/2) := by positivity
    exact le_min h (le_add_of_nonneg_right hnn)
  · intro s m h
    exact ⟨{ metrics := m, improvements := s.improvements,
             top_strengths := (strengths_of m).take 5,
             focus_areas := (focus_of m).take 5,
             recommended_courses := s.course_mappings,
             personalized_summary := summary_of m,
             estimated_potential := potential_of m },
           by simp only [compile_analysis, h], rfl, rfl⟩

/-- Witness for C3 at concrete inputs. -/
theorem claim_C3_estimated_potential_witness :
    (MetricsData.empty.overall_score.getD 5 ≤ potential_of MetricsData.empty) ∧
    potential_of MetricsData.empty ≤ 10 ∧
    (map_to_scan_analysis emptyServiceResponse).estimated_potential ≤ 10 :=
  ⟨(claim_C3_estimated_potential.2.1 MetricsData.empty).2.1 (show (5:ℚ) ≤ 10 by norm_num),
   (claim_C3_estimated_potential.2.1 MetricsData.empty).2.2,
   (claim_C3_estimated_potential.1 emptyServiceResponse).2.2.1⟩

-- ============================================================
-- Claim C2
-- ============================================================

/-- A validation payload with concrete qualities, used by several concrete
runs. -/
def vdDemo : ValidationData :=
  { front_quality := some 9, left_quality := some 8, right_quality := some 7 }

/-- An improvements payload with one concrete suggestion. -/
def impDemo : ImprovementData :=
  { area := some "jawline", priority := some "high", current_score := some 5
    potential_score := some 7, suggestion := some "Practice mewing"
    exercises := some ["Mewing"], products := some [], timeframe := some "3-6 months" }

/-- An upstream behaviour whose metrics call raises while validation and
improvements succeed. -/
def failingMetricsOracle : LLMOracle :=
  { validateResp := .ok vdDemo
    metricsResp := .error "TimeoutError: request timed out"
    improveResp := .ok [impDemo] }

/-- C2 counterexample: the orchestrator invokes the metrics stage exactly
once, so a single call failure already ends the matter: the stage leaves
`face_metrics` unset instead of falling back to the default metrics dict, the
improvements stage then short-circuits to an empty list without using its
successful response, and the compile stage errors out, leaving an empty
summary — the pipeline does not continue through improvements and compile
with defaults, and no second or third metrics attempt exists to fall back
after. -/
theorem claim_C2_counterexample :
    (analyze_face_metrics failingMetricsOracle
        (validate_images failingMetricsOracle
          { front_image := [1], left_image := [2], right_image := [3] })).face_metrics = none ∧
    (analyze_face_metrics failingMetricsOracle
        (validate_images failingMetricsOracle
          { front_image := [1], left_image := [2], right_image := [3] })).retry_count = 1 ∧
    failingMetricsOracle.improveResp = .ok [impDemo] ∧
    (run_face_analysis_pipeline failingMetricsOracle [1] [2] [3]).improvements = [] ∧
    (run_face_analysis_pipeline failingMetricsOracle [1] [2] [3]).personalized_summary = "" ∧
    (run_face_analysis_pipeline failingMetricsOracle [1] [2] [3]).metrics
        = build_face_metrics MetricsData.empty :=
  ⟨rfl, rfl, rfl, rfl, rfl, rfl⟩

/-- C2 amended: the metrics stage is invoked exactly once per pipeline run.
On failure below the cap it records the error, increments the threaded retry
counter and leaves the metrics unset — it does not retry and does not fall
back; the default-metrics fallback would be produced only by an invocation
that starts at the cap, which the single-invocation orchestrator never
performs.  After a metrics failure the improvements stage fails soft to an
empty list without calling its LLM, and the run ends in an analysis with
default-valued metrics, empty lists and an empty summary. -/
theorem claim_C2_metrics_no_retry :
    (∀ (o : LLMOracle) (f l r : Bytes) (e : String),
        o.metricsResp = .error e →
        run_face_analysis_pipeline o f l r =
          { metrics := build_face_metrics MetricsData.empty
            improvements := []
            top_strengths := []
            focus_areas := []
            recommended_courses := []
            personalized_summary := ""
            estimated_potential := 5 }) ∧
    (∀ (o : LLMOracle) (s : GState) (e : String),
        o.metricsResp = .error e → s.retry_count < 2 →
        (analyze_face_metrics o s).face_metrics = s.face_metrics ∧
        (analyze_face_metrics o s).retry_count = s.retry_count + 1 ∧
        (analyze_face_metrics o s).error = some e) ∧
    (∀ (o : LLMOracle) (s : GState) (e : String),
        o.metricsResp = .error e → ¬ s.retry_count < 2 →
        (analyze_face_metrics o s).face_metrics = some create_default_metrics_dict) ∧
    (∀ (o : LLMOracle) (s : GState), s.face_metrics = none →
        (generate_improvements o s).improvements = some [] ∧
        (generate_improvements o s).error = some "No metrics available") := by
  refine ⟨?_, ?_, ?_, ?_⟩
  · intro o f l r e h
    obtain ⟨vresp, mresp, iresp⟩ := o
    simp only at h
    subst h
    cases vresp <;> rfl
  · intro o s e h hlt
    simp [analyze_face_metrics, h, metrics_stage_failed, hlt]
  · intro o s e h hge
    simp [analyze_face_metrics, h, metrics_stage_failed, hge]
  · intro o s h
    simp [generate_improvements, h]

/-- Witness for C2: the single-failure run at a concrete oracle. -/
theorem claim_C2_metrics_no_retry_witness :
    run_face_analysis_pipeline failingMetricsOracle [] [] [] =
      { metrics := build_face_metrics MetricsData.empty
        improvements := []
        top_strengths := []
        focus_areas := []
        recommended_courses := []
        personalized_summary := ""
        estimated_potential := 5 } :=
  claim_C2_metrics_no_retry.1 failingMetricsOracle [] [] []
    "TimeoutError: request timed out" rfl

-- ============================================================
-- Claim C9
-- ============================================================

/-- An upstream behaviour whose metrics call succeeds with the fully
populated default payload while the improvements call returns invalid
JSON. -/
def invalidImprovementsOracle : LLMOracle :=
  { validateResp := .ok vdDemo
    metricsResp := .ok create_default_metrics_dict
    improveResp := .error "JSONDecodeError: Expecting value: line 1 column 1" }

/-- C9: every stage returns an updated copy of the accumulated state and
leaves every key it does not own untouched, so a stage failure cannot corrupt
a prior stage's output; in particular, when the improvements call returns
invalid JSON after a successful metrics stage, the resulting analysis has an
empty improvements list while its metrics are fully populated from the
metrics stage's payload (with the validation qualities injected). -/
theorem claim_C9_stage_isolation :
    (∀ (o : LLMOracle) (s : GState),
        (validate_images o s).front_image = s.front_image ∧
        (validate_images o s).left_image = s.left_image ∧
        (validate_images o s).right_image = s.right_image ∧
        (validate_images o s).face_metrics = s.face_metrics ∧
        (validate_images o s).improvements = s.improvements ∧
        (validate_images o s).course_mappings = s.course_mappings ∧
        (validate_images o s).analysis = s.analysis ∧
        (validate_images o s).retry_count = s.retry_count) ∧
    (∀ (o : LLMOracle) (s : GState),
        (analyze_face_metrics o s).front_image = s.front_image ∧
        (analyze_face_metrics o s).validation_result = s.validation_result ∧
        (analyze_face_metrics o s).improvements = s.improvements ∧
        (analyze_face_metrics o s).course_mappings = s.course_mappings ∧
        (analyze_face_metrics o s).analysis = s.analysis) ∧
    (∀ (o : LLMOracle) (s : GState),
        (generate_improvements o s).front_image = s.front_image ∧
        (generate_improvements o s).validation_result = s.validation_result ∧
        (generate_improvements o s).face_metrics = s.face_metrics ∧
        (generate_improvements o s).course_mappings = s.course_mappings ∧
        (generate_improvements o s).analysis = s.analysis ∧
        (generate_improvements o s).retry_count = s.retry_count) ∧
    (∀ s : GState,
        (map_to_courses s).front_image = s.front_image ∧
        (map_to_courses s).validation_result = s.validation_result ∧
        (map_to_courses s).face_metrics = s.face_metrics ∧
        (map_to_courses s).improvements = s.improvements ∧
        (map_to_courses s).analysis = s.analysis ∧
        (map_to_courses s).retry_count = s.retry_count) ∧
    (∀ s : GState,
        (compile_analysis s).front_image = s.front_image ∧
        (compile_analysis s).validation_result = s.validation_result ∧
        (compile_analysis s).face_metrics = s.face_metrics ∧
        (compile_analysis s).improvements = s.improvements ∧
        (compile_analysis s).course_mappings = s.course_mappings ∧
        (compile_analysis s).retry_count = s.retry_count) ∧
    (∀ (o : LLMOracle) (f l r : Bytes) (vd : ValidationData) (md : MetricsData) (e : String),
        o.validateResp = .ok vd → o.metricsResp = .ok md → o.improveResp = .error e →
        (run_face_analysis_pipeline o f l r).improvements = [] ∧
        (run_face_analysis_pipeline o f l r).metrics
            = build_face_metrics (inject_image_quality md vd)) := by
  refine ⟨?_, ?_, ?_, ?_, ?_, ?_⟩
  · intro o s
    cases h : o.validateResp <;> simp [validate_images, h]
  · intro o s
    cases h : o.metricsResp with
    | error e =>
        simp only [analyze_face_metrics, h, metrics_stage_failed]
        split <;> simp
    | ok parsed =>
        cases hv : s.validation_result with
        | none =>
            simp only [analyze_face_metrics, h, hv, metrics_stage_failed]
            split <;> simp
        | some v => simp [analyze_face_metrics, h, hv]
  · intro o s
    cases hm : s.face_metrics with
    | none => simp [generate_improvements, hm]
    | some m => cases h : o.improveResp <;> simp [generate_improvements, hm, h]
  · intro s
    cases hi : s.improvements with
    | none => simp [map_to_courses, hi]
    | some imps => simp [map_to_courses, hi]
  · intro s
    cases hm : s.face_metrics with
    | none => simp [compile_analysis, hm]
    | some m => simp [compile_analysis, hm]
  · intro o f l r vd md e hv hm hi
    obtain ⟨vresp, mresp, iresp⟩ := o
    simp only at hv hm hi
    subst hv
    subst hm
    subst hi
    exact ⟨rfl, rfl⟩

/-- Witness for C9: the invalid-JSON improvements scenario at a concrete
oracle: improvements drop to empty while metrics stay the injected default
payload. -/
theorem claim_C9_stage_isolation_witness :
    (run_face_analysis_pipeline invalidImprovementsOracle [] [] []).improvements = [] ∧
    (run_face_analysis_pipeline invalidImprovementsOracle [] [] []).metrics
        = build_face_metrics (inject_image_quality create_default_metrics_dict vdDemo) :=
  claim_C9_stage_isolation.2.2.2.2.2 invalidImprovementsOracle [] [] [] vdDemo
    create_default_metrics_dict "JSONDecodeError: Expecting value: line 1 column 1" rfl rfl rfl

-- ============================================================
-- Claim C1
-- ============================================================

/-- A metrics payload on which all three compile-stage checks pass. -/
def highMetricsData : MetricsData :=
  { overall_score := some 8
    harmony_score := some 8
    jawline := some { definition_score := some 8 }
    skin := some { overall_quality := some 8 }
    proportions := some { overall_symmetry := some 8 }
    confidence_score := some (9/10) }

/-- An upstream behaviour whose improvements call raises mid-pipeline while
everything else succeeds. -/
def improveThrowsOracle : LLMOracle :=
  { validateResp := .ok vdDemo
    metricsResp := .ok highMetricsData
    improveResp := .error "JSONDecodeError: Expecting value: line 1 column 1" }

/-- A video every read of which decodes. -/
def allGoodVideo : Video :=
  { fps0 := 30, total_frames := 500, read := fun _ => some [7] }

/-- An undecodable video: OpenCV reports no frames and every read fails. -/
def badVideo : Video :=
  { fps0 := 0, total_frames := 0, read := fun _ => none }

/-- C1 counterexample: an exception thrown during a pipeline stage (here the
improvements call) does not produce the fallback analysis: the stage catches
it locally, and the returned analysis has `focus_areas = []` rather than
`["Retry analysis"]` and a summary with no error text. -/
theorem claim_C1_counterexample :
    improveThrowsOracle.improveResp
        = .error "JSONDecodeError: Expecting value: line 1 column 1" ∧
    (run_video_analysis_pipeline improveThrowsOracle allGoodVideo).focus_areas = [] ∧
    (run_video_analysis_pipeline improveThrowsOracle allGoodVideo).focus_areas
        ≠ ["Retry analysis"] :=
  ⟨rfl, rfl, by decide⟩

/-- C1 amended: every pipeline stage catches its own exceptions, so the only
exception that can escape the sequence comes from frame extraction; whenever
extraction raises, the orchestrator boundary converts it — for every upstream
LLM behaviour — into the fully-populated fallback analysis whose
`focus_areas` is `["Retry analysis"]` and whose summary embeds the error
text, which for a video-decoding failure contains the literal substring
"Video extraction failed"; the pipeline's return type carries no exception,
so the caller never sees one. -/
theorem claim_C1_video_orchestrator_fallback :
    ∀ (o : LLMOracle) (v : Video) (e : String),
      extract_frames_from_video v = .error e →
      run_video_analysis_pipeline o v
          = create_fallback_analysis ("Video extraction failed: " ++ e) ∧
      (run_video_analysis_pipeline o v).focus_areas = ["Retry analysis"] ∧
      hasSubstring (run_video_analysis_pipeline o v).personalized_summary
        "Video extraction failed" := by
  intro o v e h
  have hrun : run_video_analysis_pipeline o v
      = create_fallback_analysis ("Video extraction failed: " ++ e) := by
    unfold run_video_analysis_pipeline
    rw [h]
  refine ⟨hrun, by rw [hrun]; rfl, ?_⟩
  rw [hrun]
  show hasSubstring ("Analysis encountered an issue. Please try again. Error: "
      ++ ("Video extraction failed: " ++ e)) "Video extraction failed"
  refine ⟨"Analysis encountered an issue. Please try again. Error: ", ": " ++ e, ?_⟩
  have hsplit : ("Video extraction failed: " : String) ++ e
      = "Video extraction failed" ++ (": " ++ e) := by
    rw [← String.append_assoc]
    rfl
  rw [hsplit]

/-- Witness for C1: the undecodable video at a concrete oracle. -/
theorem claim_C1_video_orchestrator_fallback_witness :
    run_video_analysis_pipeline improveThrowsOracle badVideo
        = create_fallback_analysis
            ("Video extraction failed: " ++ "cv2.error: imencode received an empty frame") ∧
    (run_video_analysis_pipeline improveThrowsOracle badVideo).focus_areas
        = ["Retry analysis"] ∧
    hasSubstring (run_video_analysis_pipeline improveThrowsOracle badVideo).personalized_summary
      "Video extraction failed" :=
  claim_C1_video_orchestrator_fallback improveThrowsOracle badVideo
    "cv2.error: imencode received an empty frame" rfl

-- ============================================================
-- Claim C7
-- ============================================================

theorem pyInt_nonneg {q : ℚ} (h : 0 ≤ q) : 0 ≤ pyInt q := by
  unfold pyInt
  rw [if_pos h]
  exact Int.ediv_nonneg (Rat.num_nonneg.mpr h) (Int.ofNat_nonneg _)

theorem video_fps_nonneg (v : Video) (h : 0 ≤ v.fps0) : 0 ≤ video_fps v := by
  unfold video_fps
  split
  · norm_num
  · exact h

/-- A video whose read at the right-profile index fails while frame 0 still
decodes: index 15 and 150 decode to distinct frames, 420 fails, 0 decodes to
a third distinct frame. -/
def c7Video : Video :=
  { fps0 := 30, total_frames := 500,
    read := fun i =>
      if i = 15 then some [1] else if i = 150 then some [2]
      else if i = 0 then some [3] else none }

theorem c7Video_indices : frame_indices c7Video = (15, 150, 420) := by
  show (pyInt ((1/2) * 30), pyInt (5 * 30), pyInt (14 * 30)) = (15, 150, 420)
  rw [show ((1/2 : ℚ) * 30) = 15 by norm_num, show ((5 : ℚ) * 30) = 150 by norm_num,
      show ((14 : ℚ) * 30) = 420 by norm_num]
  decide

/-- C7 counterexample: when the third sampled read fails, the extractor does
not pad by repeating the last successfully decoded frame (nor an empty
buffer): it re-reads frame 0 for that slot, so the third buffer is frame 0's
encoding, distinct from both. -/
theorem claim_C7_counterexample :
    c7Video.read (min 420 (c7Video.total_frames - 1)) = none ∧
    extract_frames_from_video c7Video = .ok ([1], [2], [3]) ∧
    ([3] : Bytes) ≠ [2] ∧ ([3] : Bytes) ≠ [] := by
  refine ⟨by decide, ?_, by decide, by decide⟩
  unfold extract_frames_from_video
  rw [c7Video_indices]
  rfl

/-- C7 amended: the extractor samples at `int(0.5*fps)`, `int(5.0*fps)` and
`int(14.0*fps)`; each index is reduced with `min(idx, total_frames-1)`, which
lands in `[0, total_frames-1]` for any non-empty video with a non-negative
reported fps; when each sampled read (or, on its failure, a fallback re-read
of frame 0) decodes, the result is exactly the three encoded buffers — a slot
whose sampled read fails holds frame 0, not a repetition of the previous
frame; and when a sampled read and the frame-0 fallback both fail, extraction
raises instead of padding, so the trailing repetition loop never runs. -/
theorem claim_C7_frame_extraction :
    (∀ v : Video, 0 ≤ v.fps0 → 1 ≤ v.total_frames →
        (0 ≤ min (frame_indices v).1 (v.total_frames - 1) ∧
         min (frame_indices v).1 (v.total_frames - 1) ≤ v.total_frames - 1) ∧
        (0 ≤ min (frame_indices v).2.1 (v.total_frames - 1) ∧
         min (frame_indices v).2.1 (v.total_frames - 1) ≤ v.total_frames - 1) ∧
        (0 ≤ min (frame_indices v).2.2 (v.total_frames - 1) ∧
         min (frame_indices v).2.2 (v.total_frames - 1) ≤ v.total_frames - 1)) ∧
    (∀ (v : Video) (j : ℤ) (f : Frame),
        v.read (min j (v.total_frames - 1)) = some f →
        read_frame_at v j = .ok (imencode_jpg f)) ∧
    (∀ (v : Video) (j : ℤ) (f0 : Frame),
        v.read (min j (v.total_frames - 1)) = none → v.read 0 = some f0 →
        read_frame_at v j = .ok (imencode_jpg f0)) ∧
    (∀ (v : Video) (j : ℤ),
        v.read (min j (v.total_frames - 1)) = none → v.read 0 = none →
        read_frame_at v j = .error "cv2.error: imencode received an empty frame") ∧
    (∀ (v : Video) (b1 b2 b3 : Bytes),
        read_frame_at v (frame_indices v).1 = .ok b1 →
        read_frame_at v (frame_indices v).2.1 = .ok b2 →
        read_frame_at v (frame_indices v).2.2 = .ok b3 →
        extract_frames_from_video v = .ok (b1, b2, b3)) ∧
    (∀ (v : Video) (e : String),
        read_frame_at v (frame_indices v).1 = .error e →
        extract_frames_from_video v = .error e) := by
  refine ⟨?_, ?_, ?_, ?_, ?_, ?_⟩
  · intro v h0 h1
    have hfps := video_fps_nonneg v h0
    have hi1 : 0 ≤ (frame_indices v).1 := pyInt_nonneg (by
      show (0:ℚ) ≤ (1/2) * video_fps v
      have : (0:ℚ) ≤ 1/2 := by norm_num
      exact mul_nonneg this hfps)
    have hi2 : 0 ≤ (frame_indices v).2.1 := pyInt_nonneg (by
      show (0:ℚ) ≤ 5 * video_fps v
      have : (0:ℚ) ≤ 5 := by norm_num
      exact mul_nonneg this hfps)
    have hi3 : 0 ≤ (frame_indices v).2.2 := pyInt_nonneg (by
      show (0:ℚ) ≤ 14 * video_fps v
      have : (0:ℚ) ≤ 14 := by norm_num
      exact mul_nonneg this hfps)
    have htot : (0:ℤ) ≤ v.total_frames - 1 := by linarith
    exact ⟨⟨le_min hi1 htot, min_le_right _ _⟩, ⟨le_min hi2 htot, min_le_right _ _⟩,
           ⟨le_min hi3 htot, min_le_right _ _⟩⟩
  · intro v j f h
    simp [read_frame_at, h]
  · intro v j f0 h h0
    simp [read_frame_at, h, h0]
  · intro v j h h0
    simp [read_frame_at, h, h0]
  · intro v b1 b2 b3 h1 h2 h3
    simp [extract_frames_from_video, h1, h2, h3, pad_to_three, pad_step,
      Bind.bind, Except.bind, Functor.map, Except.map, pure, Except.pure]
  · intro v e h
    simp [extract_frames_from_video, h,
      Bind.bind, Except.bind, Functor.map, Except.map, pure, Except.pure]

/-- Witness for C7: the fully decodable video. -/
theorem claim_C7_frame_extraction_witness :
    extract_frames_from_video allGoodVideo = .ok ([7], [7], [7]) ∧
    (0 ≤ min (frame_indices allGoodVideo).1 (allGoodVideo.total_frames - 1) ∧
     min (frame_indices allGoodVideo).1 (allGoodVideo.total_frames - 1)
        ≤ allGoodVideo.total_frames - 1) :=
  ⟨claim_C7_frame_extraction.2.2.2.2.1 allGoodVideo [7] [7] [7] rfl rfl rfl,
   (claim_C7_frame_extraction.1 allGoodVideo (show (0:ℚ) ≤ 30 by norm_num)
      (show (1:ℤ) ≤ 500 by norm_num)).1⟩

-- ============================================================
-- Claim C6
-- ============================================================

/-- A non-payer, non-admin caller. -/
def freeUser : UserDoc := { is_paid := false, is_admin := false, sub_expired := false }

/-- A payer with a live subscription. -/
def paidUser : UserDoc := { is_paid := true, is_admin := false, sub_expired := false }

/-- A stored scan holding a compiled analysis. -/
def demoScanRecord : ScanRecord :=
  { analysis := some (create_fallback_analysis "seed"), processing_status := some "completed" }

/-- C6 counterexample: on the scan-by-id read path a non-payer does not
receive the redacted `{overall_score, locked}` view of the stored analysis —
the route is gated by `require_paid_user` and answers 402, even though the
scan holds an analysis. -/
theorem claim_C6_counterexample :
    demoScanRecord.analysis.isSome = true ∧
    get_scan_by_id freeUser (some demoScanRecord) = .error 402 :=
  ⟨rfl, rfl⟩

/-- C6 amended: redaction is computed per request from the full stored
record, but only on the latest-scan path: there a payer receives the full
analysis and a non-payer exactly the `{overall_score, locked: true}` pair;
the scan-by-id path instead requires a payer (or admin) and returns the full
stored analysis unredacted, answering 402 to a non-payer. -/
theorem claim_C6_gating :
    (∀ (u : UserDoc) (s : ScanRecord) (a : ScanAnalysis), s.analysis = some a →
        (u.is_paid = true →
          get_latest_scan u (some s)
              = .ok { is_unlocked := true, analysis := some (.full a),
                      processing_status := s.processing_status }) ∧
        (u.is_paid = false →
          get_latest_scan u (some s)
              = .ok { is_unlocked := false,
                      analysis := some (.locked a.metrics.overall_score),
                      processing_status := s.processing_status })) ∧
    (∀ (u : UserDoc) (sc : Option ScanRecord),
        u.is_paid = false → u.is_admin = false → get_scan_by_id u sc = .error 402) ∧
    (∀ (u : UserDoc) (s : ScanRecord),
        u.is_paid = true → u.sub_expired = false →
        get_scan_by_id u (some s)
            = .ok { analysis := s.analysis, processing_status := s.processing_status }) := by
  refine ⟨?_, ?_, ?_⟩
  · intro u s a h
    constructor
    · intro hp
      simp [get_latest_scan, h, hp]
    · intro hp
      simp [get_latest_scan, h, hp, redacted_view]
  · intro u sc h1 h2
    simp [get_scan_by_id, require_paid_user, h1, h2]
  · intro u s h1 h2
    cases ha : u.is_admin <;> simp [get_scan_by_id, require_paid_user, ha, h1, h2]

/-- Witness for C6: the two read paths at concrete callers and a concrete
stored scan. -/
theorem claim_C6_gating_witness :
    get_latest_scan freeUser (some demoScanRecord)
        = .ok { is_unlocked := false,
                analysis := some (.locked (create_fallback_analysis "seed").metrics.overall_score),
                processing_status := some "completed" } ∧
    get_scan_by_id paidUser (some demoScanRecord)
        = .ok { analysis := some (create_fallback_analysis "seed"),
                processing_status := some "completed" } :=
  ⟨(claim_C6_gating.1 freeUser demoScanRecord (create_fallback_analysis "seed") rfl).2 rfl,
   claim_C6_gating.2.2 paidUser demoScanRecord rfl rfl⟩

-- ============================================================
-- Claim C8
-- ============================================================

/-- The scenario metrics payload: jawline definition 8, skin overall quality
4, every other sub-score at the 5.0 midpoint. -/
def scenarioMetricsC8 : MetricsData :=
  { create_default_metrics_dict with
      jawline := some { definition_score := some 8, symmetry_score := some 5,
                        masseter_development := some 5, chin_projection := some 5,
                        ramus_length := some 5 }
      skin := some { overall_quality := some 4, texture_score := some 5, clarity_score := some 5,
                     tone_evenness := some 5, hydration_appearance := some 5,
                     pore_visibility := some 5, under_eye_darkness := some 5 } }

/-- An upstream behaviour for the C8 scenario whose improvements call returns
an empty JSON array. -/
def emptyImprovementsOracle : LLMOracle :=
  { validateResp := .ok vdDemo
    metricsResp := .ok scenarioMetricsC8
    improveResp := .ok [] }

/-- A suggestion whose area label is "skin". -/
def skinImprovement : ImprovementData :=
  { area := some "skin", suggestion := some "Use sunscreen daily" }

/-- An upstream behaviour for the C8 scenario whose improvements call returns
one skin-area suggestion. -/
def skinImprovementsOracle : LLMOracle :=
  { validateResp := .ok vdDemo
    metricsResp := .ok scenarioMetricsC8
    improveResp := .ok [skinImprovement] }

/-- C8 counterexample: with the scenario metrics (jawline 8, skin 4, all else
midpoint) but an empty improvements list, the compiled analysis carries the
jawline strength and the skin focus area, yet `recommended_courses` is empty:
courses are mapped from the improvement suggestions' area labels, not from
the focus areas, so the skincare course id is absent. -/
theorem claim_C8_counterexample :
    (run_face_analysis_pipeline emptyImprovementsOracle [] [] []).top_strengths
        = ["Well-defined jawline"] ∧
    (run_face_analysis_pipeline emptyImprovementsOracle [] [] []).focus_areas
        = ["Skin improvement"] ∧
    (run_face_analysis_pipeline emptyImprovementsOracle [] [] []).recommended_courses = [] ∧
    "skincare-essentials"
        ∉ (run_face_analysis_pipeline emptyImprovementsOracle [] [] []).recommended_courses :=
  ⟨rfl, rfl, rfl, by decide⟩

/-- C8 amended: the compile stage derives strengths and focus areas from its
three fixed sub-score checks — jawline definition and skin overall quality at
the 7 threshold on both sides, overall symmetry contributing only a strength —
so the scenario yields the jawline strength and the skin focus area; the
skincare course id is recommended exactly when some improvement suggestion's
area label matches the "skin" keyword, as in the scenario run whose
improvements call returns one skin-area suggestion. -/
theorem claim_C8_strengths_focus_courses :
    (∀ m : MetricsData, 7 ≤ oget0 m.jawline JawlineData.definition_score →
        "Well-defined jawline" ∈ strengths_of m) ∧
    (∀ m : MetricsData, oget0 m.jawline JawlineData.definition_score < 7 →
        "Jawline definition" ∈ focus_of m) ∧
    (∀ m : MetricsData, 7 ≤ oget0 m.skin SkinData.overall_quality →
        "Good skin quality" ∈ strengths_of m) ∧
    (∀ m : MetricsData, oget0 m.skin SkinData.overall_quality < 7 →
        "Skin improvement" ∈ focus_of m) ∧
    ((run_face_analysis_pipeline skinImprovementsOracle [] [] []).top_strengths
        = ["Well-defined jawline"] ∧
     (run_face_analysis_pipeline skinImprovementsOracle [] [] []).focus_areas
        = ["Skin improvement"] ∧
     (run_face_analysis_pipeline skinImprovementsOracle [] [] []).recommended_courses
        = ["skincare-essentials"]) := by
  refine ⟨?_, ?_, ?_, ?_, rfl, rfl, by decide⟩
  · intro m h
    unfold strengths_of
    rw [if_pos h]
    simp
  · intro m h
    unfold focus_of
    rw [if_neg (not_le.mpr h)]
    simp
  · intro m h
    unfold strengths_of
    rw [if_pos h]
    simp
  · intro m h
    unfold focus_of
    rw [if_neg (not_le.mpr h)]
    simp

/-- Witness for C8 at the scenario metrics. -/
theorem claim_C8_strengths_focus_courses_witness :
    "Well-defined jawline" ∈ strengths_of scenarioMetricsC8 ∧
    "Skin improvement" ∈ focus_of scenarioMetricsC8 :=
  ⟨claim_C8_strengths_focus_courses.1 scenarioMetricsC8 (show (7:ℚ) ≤ 8 by norm_num),
   claim_C8_strengths_focus_courses.2.2.2.1 scenarioMetricsC8 (show (4:ℚ) < 7 by norm_num)⟩

-- ============================================================
-- Claim C10
-- ============================================================

/-- C10 counterexample: the error analysis does not zero every sub-score:
the one proportions field its constructor omits, `horizontal_fifths_balance`,
takes the model's midpoint default 5.0 rather than 0. -/
theorem claim_C10_counterexample :
    (create_error_analysis "boom").metrics.proportions.horizontal_fifths_balance = 5 ∧
    (create_error_analysis "boom").metrics.proportions.horizontal_fifths_balance ≠ 0 := by
  refine ⟨rfl, ?_⟩
  intro h
  have h5 : (5 : ℚ) = 0 := h
  norm_num at h5

/-- C10 amended: in the HTTP-proxy implementation every upstream failure —
non-2xx status or any exception — makes both `upload_video` and
`analyze_frames` return, without raising, the error analysis: every
explicitly-constructed sub-score 0 (all 56 except the omitted
`horizontal_fifths_balance`, which takes the model's 5.0 midpoint default),
confidence 0, estimated potential 0, empty lists, and a summary that is
"Analysis service unavailable: " followed by the error text; this object
differs from the LLM pipeline's midpoint-5.0 fallback. -/
theorem claim_C10_proxy_error_analysis :
    (∀ (v : Bytes) (st : ℕ) (dt m : String) (r : ServiceResponse),
        upload_video v (.statusError st dt)
            = create_error_analysis ("Analysis service returned " ++ toString st ++ ": " ++ dt) ∧
        upload_video v (.exc m) = create_error_analysis m ∧
        analyze_frames [v] (.statusError st dt)
            = create_error_analysis ("Analysis service returned " ++ toString st ++ ": " ++ dt) ∧
        analyze_frames [v] (.exc m) = create_error_analysis m ∧
        upload_video v (.ok r) = map_to_scan_analysis r) ∧
    (∀ m : String,
        (create_error_analysis m).personalized_summary
            = "Analysis service unavailable: " ++ m ∧
        (create_error_analysis m).metrics.overall_score = 0 ∧
        (create_error_analysis m).metrics.harmony_score = 0 ∧
        (create_error_analysis m).metrics.confidence_score = 0 ∧
        (create_error_analysis m).estimated_potential = 0 ∧
        (create_error_analysis m).improvements = [] ∧
        (create_error_analysis m).top_strengths = [] ∧
        (create_error_analysis m).focus_areas = [] ∧
        (create_error_analysis m).recommended_courses = [] ∧
        subScoresFM (create_error_analysis m).metrics
            = List.replicate 40 0 ++ [pydantic_subscore_default] ++ List.replicate 15 0 ∧
        create_error_analysis m ≠ create_fallback_analysis m) := by
  refine ⟨fun v st dt m r => ⟨rfl, rfl, rfl, rfl, rfl⟩, fun m => ?_⟩
  refine ⟨rfl, rfl, rfl, rfl, rfl, rfl, rfl, rfl, rfl, rfl, ?_⟩
  intro h
  have h0 : (0 : ℚ) = 5 := congrArg (fun a => a.metrics.overall_score) h
  norm_num at h0
